import Mathlib

/-!
# Verification of the SQLmigration player financial & career-simulation engine

A shallow embedding of the engine in `src/game_mechanics.py`, together with
theorems settling the spec claims about it.

Conventions used throughout:
* Python numbers (ints and floats) are modelled as `ℤ`/`ℚ`; where the source
  computes a non-algebraic real power (`math.pow` with a fractional exponent)
  the value lives in `ℝ` and the power is `Real.rpow`.
* Python's `int(x)` (truncation toward zero) is `pyInt`; Python's `round`
  is modelled by Mathlib's `round` (they differ only on exact half-integers,
  which none of the claims touch).
* All draws from the process-wide RNG are passed in as explicit parameters,
  constrained (where a claim needs it) by the interval the source draws from.
* Database-derived inputs (position-average tables, observed column ranges)
  are passed in as abstract lookup functions.
-/

namespace GameMechanics

/-- Python `int()` on a rational: truncation toward zero. -/
def pyInt (q : ℚ) : ℤ := if 0 ≤ q then ⌊q⌋ else ⌈q⌉

/-- `GLOBAL_BASE_SALARY = 300000` (game_mechanics.py line 10). -/
def GLOBAL_BASE_SALARY : ℤ := 300000

/-! ## RetirementEvaluator: `check_player_retirement` (lines 1004-1076) -/

/-- The fields of `player_data` read by `check_player_retirement`;
`club_id = none` models a missing/`None` club id. -/
structure RetirePlayer where
  age : ℤ
  salary : ℚ
  club_id : Option ℤ

/-- The fields of the dictionary returned by `check_player_retirement`
that the claims are about (the narrative `reason` string is omitted). -/
structure RetirementResult where
  wants_to_retire : Bool
  retirement_probability : ℚ
  deriving Repr, DecidableEq

/-- Embedding of `check_player_retirement` (lines 1004-1076).
`random_value` stands for the `random.random()` draw at line 1050. -/
def check_player_retirement (p : RetirePlayer) (random_value : ℚ) :
    RetirementResult :=
  if p.age < 30 then
    { wants_to_retire := false, retirement_probability := 0 }
  else
    let age_factor : ℚ := ((p.age : ℚ) - 30) / 13
    let age_probability : ℚ := min (8/10) (age_factor * (75/100))
    let salary_normalized : ℚ := min 1 (p.salary / ((GLOBAL_BASE_SALARY : ℚ) * 15))
    let salary_factor : ℚ := 1 - salary_normalized
    let club_factor : ℚ :=
      if p.club_id = some 141 ∨ p.club_id = none then 25/100 else 0
    let base_probability := age_probability
    let salary_adjustment := salary_factor * (3/10)
    let final_probability := base_probability + club_factor - salary_adjustment
    let final_probability := max 0 (min 1 final_probability)
    { wants_to_retire := random_value < final_probability,
      retirement_probability := final_probability }

/-! ## DevelopmentEngine: key encoding and decoding -/

/-- `generate_development_key` (lines 364-383): single-profile encoding
`profile_type * 1000 + int(base_multiplier * 100)`. -/
def generate_development_key (profile_type : ℕ) (base_multiplier : ℚ) : ℕ :=
  let profile_encoded := profile_type * 1000
  let multiplier_encoded := (pyInt (base_multiplier * 100)).toNat
  profile_encoded + multiplier_encoded

/-- The profile-encoding loop of `generate_mixed_development_key`
(lines 463-464): `for i, profile in enumerate(profiles): encoded |= (profile << (16 + i * 4))`. -/
def encodeProfilesLoop : ℕ → List ℕ → ℕ → ℕ
  | _, [], acc => acc
  | i, p :: rest, acc => encodeProfilesLoop (i + 1) rest (acc ||| (p <<< (16 + i * 4)))

/-- The weight-encoding loop of `generate_mixed_development_key`
(lines 467-468): `for i, weight in enumerate(profile_weights): encoded |= (int(weight * 100) << (i * 8))`. -/
def encodeWeightsLoop : ℕ → List ℚ → ℕ → ℕ
  | _, [], acc => acc
  | i, w :: rest, acc =>
      encodeWeightsLoop (i + 1) rest (acc ||| ((pyInt (w * 100)).toNat <<< (i * 8)))

/-- The encoding block of `generate_mixed_development_key` (lines 458-470),
as a function of the sampled profile list and their normalized weights
(`num_profiles = len(profiles)` by construction at lines 415-436). -/
def encode_mixed_development_key (profiles : List ℕ) (profile_weights : List ℚ) : ℕ :=
  let encoded : ℕ := 0x80000000
  let encoded := encoded ||| (profiles.length <<< 24)
  let encoded := encodeProfilesLoop 0 profiles encoded
  let encoded := encodeWeightsLoop 0 profile_weights encoded
  encoded

/-- The mixed development key built for a regen in `generate_proper_regen`
(lines 1890-1894): `(selected_profiles[0] << 20) | (selected_profiles[1] << 10) | selected_profiles[2]`. -/
def regen_mixed_development_key (p0 p1 p2 : ℕ) : ℕ :=
  (p0 <<< 20) ||| (p1 <<< 10) ||| p2

/-- The dictionary returned by `decode_mixed_development_key` /
`decode_development_key`; `is_mixed` is absent (hence `false` via
`dev_info.get('is_mixed', False)`) in the single-profile branch, and the
single-profile fields default to `0` in the mixed branch. -/
structure DecodedDevKey where
  is_mixed : Bool
  profiles : List ℕ
  weights : List ℚ
  profile_type : ℕ := 0
  base_multiplier : ℚ := 0
  deriving Repr, DecidableEq

/-- `decode_development_key` (lines 385-403). -/
def decode_development_key (development_key : ℕ) : DecodedDevKey :=
  { is_mixed := false, profiles := [], weights := [],
    profile_type := development_key / 1000,
    base_multiplier := ((development_key % 1000 : ℕ) : ℚ) / 100 }

/-- `decode_mixed_development_key` (lines 593-642).  `profile_type in
DEVELOPMENT_PROFILES` is `profile_type ≤ 9` (the ten archetypes are keyed
0-9, lines 343-354); the two `while` padding loops become appends of the
needed number of zeros. -/
def decode_mixed_development_key (development_key : ℕ) : DecodedDevKey :=
  if development_key &&& 0x80000000 ≠ 0 then
    let num_profiles := (development_key >>> 24) &&& 0xFF
    let profiles := (List.range (min num_profiles 3)).filterMap (fun i =>
      let profile_type := (development_key >>> (16 + i * 4)) &&& 0xF
      if profile_type ≤ 9 then some profile_type else none)
    let weights := (List.range (min num_profiles 3)).map (fun i =>
      (((development_key >>> (i * 8)) &&& 0xFF : ℕ) : ℚ) / 100)
    let weights := weights ++ List.replicate (profiles.length - weights.length) 0
    let profiles := profiles ++ List.replicate (weights.length - profiles.length) 0
    let weights :=
      if weights ≠ [] then
        let total_weight := weights.sum
        if total_weight > 0 then weights.map (· / total_weight) else weights
      else weights
    { is_mixed := true, profiles := profiles, weights := weights }
  else
    decode_development_key development_key

/-! ## DevelopmentEngine: one season of skill development -/

/-- `get_age_development_multiplier` (lines 644-772): the age-banded
multiplier table of each of the ten archetypes; any other profile type
recursively falls back to the `regular` table (line 772). -/
def get_age_development_multiplier (age : ℤ) : (profile_type : ℕ) → ℚ
  | 0 => if age ≤ 23 then 8/10 else if age ≤ 28 then 3/10 else if age ≤ 32 then 0
         else if age ≤ 35 then -2/10 else -5/10
  | 1 => if age ≤ 25 then 5/10 else if age ≤ 30 then 1 else if age ≤ 34 then 2/10
         else if age ≤ 37 then -1/10 else -3/10
  | 2 => if age ≤ 20 then 12/10 else if age ≤ 25 then 6/10 else if age ≤ 28 then 0
         else if age ≤ 32 then -3/10 else -7/10
  | 3 => if age ≤ 26 then 6/10 else if age ≤ 32 then 2/10 else if age ≤ 36 then -1/10
         else -2/10
  | 4 => if age ≤ 22 then 4/10 else if age ≤ 26 then 1/10 else if age ≤ 30 then -2/10
         else if age ≤ 34 then -4/10 else -8/10
  | 5 => if age ≤ 25 then 7/10 else if age ≤ 30 then 4/10 else if age ≤ 35 then 2/10
         else if age ≤ 40 then 0 else -1/10
  | 6 => if age ≤ 20 then 6/10 else if age ≤ 23 then 15/10 else if age ≤ 26 then 12/10
         else if age ≤ 29 then 1/10 else -5/10
  | 7 => if age ≤ 22 then 9/10 else if age ≤ 25 then 3/10 else if age ≤ 28 then -3/10
         else -7/10
  | 8 => if age ≤ 25 then 8/10 else if age ≤ 30 then 6/10 else if age ≤ 35 then 4/10
         else if age ≤ 40 then 2/10 else 0
  | 9 => if age ≤ 22 then 2/10 else if age ≤ 25 then 0 else if age ≤ 28 then -3/10
         else if age ≤ 32 then -6/10 else -9/10
  | _ + 10 => get_age_development_multiplier age 0
  termination_by profile_type => profile_type

/-- The `trait_type` field of `decode_development_trait` (lines 495-511):
the lower 8 bits of the trait key (the `trait_name`/`description` strings
are not used by any claim). -/
def decode_development_trait (trait_key : ℕ) : ℕ := trait_key &&& 0xFF

/-- `get_position_skill_weights_from_averages` (lines 942-973).  The pandas
`pos_avg_df` row for the player's position is modelled as an association
list from skill name to its position average; `none` models a position
absent from the table's index.  `maxValues` stands for pandas
`pos_averages.max()` (the table rows are nonempty in the database, so the
`0` default of the fold is never the maximum). -/
def maxValues (l : List (String × ℚ)) : ℚ := (l.map Prod.snd).foldr max 0

/-- `get_position_skill_weights_from_averages` (lines 942-973). -/
def get_position_skill_weights_from_averages
    (pos_avg_row : Option (List (String × ℚ))) : List (String × ℚ) :=
  match pos_avg_row with
  | none => [("balance", 1), ("consistency", 1), ("condition_fitness", 1)]
  | some pos_averages =>
      let max_avg := maxValues pos_averages
      pos_averages.map (fun sa =>
        if sa.2 > 0 then (sa.1, max (1/2) (min 2 (sa.2 / max_avg * 2)))
        else (sa.1, 1/2))

/-- `apply_development_trait_effects` (lines 513-560) on an association-list
weight dictionary (`sharpie` and `genetic_freak` touch disjoint skill sets,
so the two source loops collapse to one traversal each). -/
def apply_development_trait_effects (position_weights : List (String × ℚ))
    (trait_type : ℕ) : List (String × ℚ) :=
  let shooting_skills := ["shot_accuracy", "shot_power", "shot_technique",
    "free_kick_accuracy"]
  let physical_skills := ["top_speed", "acceleration", "stamina", "jump", "balance"]
  if trait_type = 1 then
    let max_weight := maxValues position_weights
    position_weights.map (fun sw =>
      if sw.2 > 1 then (sw.1, max 1 (max_weight - sw.2 + 1)) else sw)
  else if trait_type = 2 then
    position_weights.map (fun sw =>
      if sw.1 ∈ shooting_skills then (sw.1, sw.2 * (15/10))
      else if sw.1 ∈ physical_skills then (sw.1, sw.2 * (7/10))
      else sw)
  else if trait_type = 3 then
    position_weights.map (fun sw =>
      if sw.1 ∈ physical_skills then (sw.1, sw.2 * (15/10))
      else if sw.1 ∈ shooting_skills then (sw.1, sw.2 * (7/10))
      else sw)
  else position_weights

/-- The fields of `player_data` read by `calculate_player_skill_development`
and `calculate_performance_boost`; `none` models a missing dictionary key
(the source reads every one of them with `.get(key, default)`). -/
structure DevPlayer where
  age : Option ℤ
  registered_position : Option String
  skills : String → Option ℤ
  games_played : Option ℤ
  goals : Option ℤ
  assists : Option ℤ

/-- The dictionary returned by `calculate_performance_boost`. -/
structure PerformanceBoost where
  games_boost : ℚ
  goals_boost : ℚ
  assists_boost : ℚ
  total_boost : ℚ

/-- `calculate_performance_boost` (lines 975-1002); `performance_random` is
the `random.uniform(0.8, 1.2)` draw at line 995. -/
def calculate_performance_boost (p : DevPlayer) (performance_random : ℚ) :
    PerformanceBoost :=
  let games_played := (p.games_played).getD 0
  let goals := (p.goals).getD 0
  let assists := (p.assists).getD 0
  let games_boost : ℚ := min (5/10) ((games_played : ℚ) * (2/100))
  let goals_boost : ℚ := min (8/10) ((goals : ℚ) * (1/10))
  let assists_boost : ℚ := min (6/10) ((assists : ℚ) * (8/100))
  { games_boost := games_boost * performance_random,
    goals_boost := goals_boost * performance_random,
    assists_boost := assists_boost * performance_random,
    total_boost := (games_boost + goals_boost + assists_boost) * performance_random }

/-- The per-skill entry of the `skill_changes` dictionary (lines 912-918).
The source's `performance_boost` entry is
`performance_boost.get(f'{skill}_boost', 0)`, and no key of the
`calculate_performance_boost` dictionary has that shape, so it is always 0. -/
structure SkillChange where
  current : ℤ
  change : ℤ
  new : ℤ
  weight : ℚ
  performance_boost : ℚ
  deriving Repr, DecidableEq

/-- `skill_columns` of `calculate_player_skill_development` (lines 842-849). -/
def dev_skill_columns : List String :=
  ["attack", "defense", "balance", "stamina", "top_speed", "acceleration",
   "response", "agility", "dribble_accuracy", "dribble_speed",
   "short_pass_accuracy", "short_pass_speed", "long_pass_accuracy", "long_pass_speed",
   "shot_accuracy", "shot_power", "shot_technique", "free_kick_accuracy", "swerve",
   "heading", "jump", "technique", "aggression", "mentality", "goal_keeping",
   "team_work", "consistency", "condition_fitness"]

/-- One iteration of the per-skill loop of `calculate_player_skill_development`
(lines 854-920): returns the `skill_changes` entry for `skill`, or `none` when
the skill is absent from the player record or is `goal_keeping` for an
outfield player.  `registered_position` is the already-defaulted position,
`final_multiplier` the already-randomized multiplier (line 836), `boost` the
performance boosts, `position_weights` the trait-adjusted position weight
dictionary, and `skill_random` the per-skill `random.uniform(0.7, 1.3)` draw
(line 905). -/
def develop_skill_entry (p : DevPlayer) (registered_position : String)
    (final_multiplier : ℚ) (boost : PerformanceBoost)
    (position_weights : List (String × ℚ)) (skill_random : String → ℚ)
    (skill : String) : Option (String × SkillChange) :=
  match p.skills skill with
  | none => none
  | some current_value =>
    if skill = "goal_keeping" ∧ registered_position ≠ "0" then none
    else
      let skill_weight := (position_weights.lookup skill).getD 1
      let base_change := final_multiplier * skill_weight
      let value_modifier : ℚ :=
        if base_change > 0 then
          if current_value ≥ 95 then 3/10
          else if current_value ≥ 90 then 5/10
          else if current_value ≥ 85 then 7/10
          else if current_value ≥ 75 then 9/10
          else 1
        else
          if current_value ≥ 95 then 15/10
          else if current_value ≥ 90 then 13/10
          else if current_value ≥ 85 then 11/10
          else 1
      let base_change := base_change * value_modifier
      let base_change :=
        if skill ∈ ["attack", "shot_accuracy", "shot_power", "shot_technique"] ∧
            (p.goals).getD 0 > 0 then
          base_change + boost.goals_boost
        else if skill ∈ ["short_pass_accuracy", "long_pass_accuracy", "technique"] ∧
            (p.assists).getD 0 > 0 then
          base_change + boost.assists_boost
        else if skill ∈ ["stamina", "consistency", "condition_fitness"] ∧
            (p.games_played).getD 0 > 0 then
          base_change + boost.games_boost
        else base_change
      let skill_change := base_change * skill_random skill
      let new_value := max 1 (min 99 (pyInt ((current_value : ℚ) + skill_change)))
      let actual_change := new_value - current_value
      some (skill,
        { current := current_value, change := actual_change, new := new_value,
          weight := skill_weight, performance_boost := 0 })

/-- The fields of the dictionary returned by
`calculate_player_skill_development` that the claims are about. -/
structure DevelopmentResult where
  age_multiplier : ℚ
  base_multiplier : ℚ
  final_multiplier : ℚ
  skill_changes : List (String × SkillChange)
  total_skill_change : ℤ
  is_mixed : Bool

/-- Embedding of `calculate_player_skill_development` (lines 774-940).
`pos_avg_row` is the row of the
cached database position-average table for the player's registered position
(an external, database-derived input, lines 822-826); `random_factor` is the
`random.uniform(0.75, 1.25)` draw at line 835, `performance_random` and
`skill_random` as above. -/
def calculate_player_skill_development (p : DevPlayer)
    (development_key trait_key : ℕ)
    (pos_avg_row : Option (List (String × ℚ)))
    (random_factor performance_random : ℚ) (skill_random : String → ℚ) :
    DevelopmentResult :=
  let dev_info := decode_mixed_development_key development_key
  let trait_type := decode_development_trait trait_key
  let age := (p.age).getD 25
  let registered_position := (p.registered_position).getD "7"
  let age_multiplier :=
    if dev_info.is_mixed then
      ((dev_info.profiles.zip dev_info.weights).map
        (fun pw => get_age_development_multiplier age pw.1 * pw.2)).sum
    else get_age_development_multiplier age dev_info.profile_type
  let base_multiplier := if dev_info.is_mixed then 1 else dev_info.base_multiplier
  let position_weights :=
    get_position_skill_weights_from_averages pos_avg_row
  let position_weights :=
    apply_development_trait_effects position_weights trait_type
  let final_multiplier := age_multiplier * base_multiplier
  let final_multiplier := final_multiplier * random_factor
  let performance_boost := calculate_performance_boost p performance_random
  let skill_changes := dev_skill_columns.filterMap
    (develop_skill_entry p registered_position final_multiplier
      performance_boost position_weights skill_random)
  { age_multiplier := age_multiplier,
    base_multiplier := base_multiplier,
    final_multiplier := final_multiplier,
    skill_changes := skill_changes,
    total_skill_change := (skill_changes.map (fun se => se.2.change)).sum,
    is_mixed := dev_info.is_mixed }

/-! ## PlayerGenerator: regen skill attributes -/

/-- One iteration of the skill-attribute loop of `generate_proper_regen`
(lines 1920-1951).  `retired` is the retiring player's skill dictionary,
`column_ranges` the observed min/max per database column, `age_factor` the
age scaling (line 1907), `variation` the `random.uniform(-8, 8)` draw,
`rand_4_8` the `random.randint(4, 8)` draw and `rand_50_70` the
`random.randint(50, 70)` draw used when the skill is absent. -/
def regen_skill_value (retired : String → Option ℚ)
    (column_ranges : String → Option (ℤ × ℤ)) (age_factor variation : ℚ)
    (rand_4_8 rand_50_70 : ℤ) (skill : String) : ℤ :=
  match retired skill with
  | some base_value =>
      let final_value := pyInt (base_value * age_factor + variation)
      let final_value :=
        match column_ranges skill with
        | some mm => max mm.1 (min mm.2 final_value)
        | none => max 1 (min 99 final_value)
      let final_value :=
        if skill = "condition_fitness" then max 4 (min 8 final_value) else final_value
      let final_value :=
        if skill = "consistency" then max 4 (min 8 final_value) else final_value
      final_value
  | none =>
      if skill = "condition_fitness" then rand_4_8
      else if skill = "consistency" then rand_4_8
      else rand_50_70

/-! ## FinancialCalculator -/

/-- Python `int()` on a real: truncation toward zero. -/
noncomputable def pyIntR (x : ℝ) : ℤ := if 0 ≤ x then ⌊x⌋ else ⌈x⌉

/-- Parameters of `calculate_player_salary_base` (lines 129-141). -/
def NORM : ℚ := 75
/-- Binary-skill impact factor (line 130). -/
def BIN_IMPACT : ℚ := 15/100
/-- Lower multiplier threshold (line 131). -/
def R_START : ℚ := 70
/-- Upper multiplier threshold (line 132). -/
def R_END : ℚ := 99
/-- Minimum skill multiplier (line 133). -/
def MIN_MULT : ℚ := 1/2
/-- Maximum skill multiplier (line 134). -/
def MAX_MULT : ℚ := 4
/-- Defense contribution boost (line 135). -/
def DEF_BOOST : ℚ := 4
/-- Goalkeeping contribution boost (line 136). -/
def GK_BOOST : ℚ := 4
/-- Score divisor (line 139). -/
def DIV : ℚ := 1000
/-- Salary scaling factor (line 141). -/
def SCALER : ℚ := 1170000

/-- The fields of `player_data` used by the financial calculations.
`skills` maps a numeric column name to its value (`none` = absent/NaN);
`AGE` is the (distinct) dictionary key read by
`calculate_player_market_value_only` at line 1341. -/
structure FinPlayer where
  skills : String → Option ℚ
  registered_position : Option String
  club_id : Option ℤ
  age : Option ℚ
  AGE : Option ℚ
  salary : Option ℚ

/-- `identify_binary_skills` (lines 103-111) on the one-row DataFrame built
from `player_data` (line 1114): a column is binary iff it is present,
non-null, and its value is 0 or 1. -/
def identify_binary_skills (skills : String → Option ℚ)
    (skill_cols_list : List String) : List String :=
  skill_cols_list.filter (fun col =>
    match skills col with
    | some v => v == 0 || v == 1
    | none => false)

/-- The per-skill importance lookup of `calculate_player_salary_base`
(lines 146-151 and 172): the whole table missing, the position row missing,
or the skill column missing from the row all fall back to `NORM`. -/
def pos_spec_avg_lookup
    (pos_avg_df : Option (String → Option (String → Option ℚ)))
    (pos_clean skill_n : String) : ℚ :=
  match pos_avg_df with
  | none => NORM
  | some df =>
    match df pos_clean with
    | none => NORM
    | some row => (row skill_n).getD NORM

/-- The per-skill salary multiplier of `calculate_player_salary_base`
(lines 159-169), including the (dead, given `MIN_MULT = 0.5 > 0`) branches
on the multiplier constants. -/
noncomputable def salary_skill_mult (val : ℚ) : ℝ :=
  if val ≥ R_END then (MAX_MULT : ℝ)
  else if val > R_START then
    let prog : ℝ := ((val : ℝ) - (R_START : ℝ)) / ((R_END : ℝ) - (R_START : ℝ))
    if MIN_MULT > 0 ∨ MAX_MULT > 0 then
      if MIN_MULT = 0 ∧ MAX_MULT > 0 then (MAX_MULT : ℝ) * prog ^ (2 : ℝ)
      else if MIN_MULT > 0 then
        (MIN_MULT : ℝ) * ((MAX_MULT : ℝ) / (MIN_MULT : ℝ)) ^ prog
      else (MIN_MULT : ℝ)
    else (MIN_MULT : ℝ)
  else (MIN_MULT : ℝ)

/-- The skill-score accumulation loop of `calculate_player_salary_base`
(lines 153-184): `twss` summed over the present skills. -/
noncomputable def salary_twss (p : FinPlayer)
    (pos_avg_df : Option (String → Option (String → Option ℚ)))
    (pos_clean : String) (skills binaries : List String) : ℝ :=
  skills.foldl (fun twss skill_n =>
    match p.skills skill_n with
    | none => twss
    | some val =>
      let mult := salary_skill_mult val
      let eff_val := (val : ℝ) * mult
      let skill_imp_val := pos_spec_avg_lookup pos_avg_df pos_clean skill_n
      let imp := (skill_imp_val : ℝ) / (NORM : ℝ)
      let contrib := eff_val * imp
      let contrib :=
        if skill_n = "DEFENSE" then contrib * (DEF_BOOST : ℝ)
        else if skill_n = "GOAL KEEPING" then contrib * (GK_BOOST : ℝ)
        else contrib
      let contrib := if skill_n ∈ binaries then contrib * (BIN_IMPACT : ℝ) else contrib
      twss + contrib) 0

/-- `calculate_player_salary_base` (lines 114-192).  Python's `round` is
Mathlib's `round` (see the file docstring). -/
noncomputable def calculate_player_salary_base (p : FinPlayer)
    (pos_avg_df : Option (String → Option (String → Option ℚ)))
    (skills binaries : List String) : ℤ :=
  let pos_clean := (p.registered_position).getD "Unknown Position"
  let twss := salary_twss p pos_avg_df pos_clean skills binaries
  let twss := max 0 twss
  let norm_twss := twss / (DIV : ℝ)
  let pow_score := (max 0 norm_twss) ^ (3 : ℝ)
  let sal_skills := pow_score * (SCALER : ℝ)
  let calc_sal := ((GLOBAL_BASE_SALARY : ℤ) : ℝ) + sal_skills
  max GLOBAL_BASE_SALARY (round (calc_sal / 1000) * 1000)

/-- `get_age_market_value_multiplier` (lines 200-222); `none` models a NaN
age (line 202), and the exponents are `k_y = 1.5`, `k_o = 3.0`. -/
noncomputable def get_age_market_value_multiplier (age_val : Option ℚ) : ℝ :=
  match age_val with
  | none => 1
  | some age =>
    let y_ref : ℚ := 16; let y_fact : ℝ := 4
    let p_ref : ℚ := 29; let p_fact : ℝ := 1
    let o_ref : ℚ := 40; let o_fact : ℝ := 1/100
    let k_y : ℝ := 3/2
    let k_o : ℝ := 3
    if age ≤ y_ref then y_fact
    else if age < p_ref then
      let prog : ℝ := ((age : ℝ) - (y_ref : ℝ)) / ((p_ref : ℝ) - (y_ref : ℝ))
      p_fact + (y_fact - p_fact) * (1 - prog) ^ k_y
    else if age = p_ref then p_fact
    else if age < o_ref then
      let prog : ℝ := ((age : ℝ) - (p_ref : ℝ)) / ((o_ref : ℝ) - (p_ref : ℝ))
      o_fact + (p_fact - o_fact) * (1 - prog) ^ k_o
    else o_fact

/-- `apply_market_value_adjustment` (lines 1078-1083); `factor` is the
`random.uniform(-0.15, 0.25)` draw at line 1081. -/
noncomputable def apply_market_value_adjustment (market_value : ℝ)
    (factor : ℝ) : ℤ :=
  let adj_mv := market_value * (1 + factor)
  max 0 (round (adj_mv / 1000) * 1000)

/-- The `market_value` field of the dictionary returned by
`calculate_player_financials` (lines 1085-1149): base salary × 1.5 × age
multiplier, randomly adjusted, then forced to 0 for a free agent
(club id 141 or missing, lines 1134-1136).  `skills` is the
`skill_columns` list of lines 1100-1111; the salary-side random draws do
not feed into this field. -/
noncomputable def calculate_player_financials_market_value (p : FinPlayer)
    (pos_avg_df : Option (String → Option (String → Option ℚ)))
    (skills : List String) (mv_factor : ℝ) : ℤ :=
  let binary_skills := identify_binary_skills p.skills skills
  let base_salary := calculate_player_salary_base p pos_avg_df skills binary_skills
  let market_value := ((base_salary : ℤ) : ℝ) * 1.5
  let age_multiplier := get_age_market_value_multiplier (some ((p.age).getD 25))
  let market_value := market_value * age_multiplier
  let market_value := apply_market_value_adjustment market_value mv_factor
  let market_value := if p.club_id = some 141 ∨ p.club_id = none then 0 else market_value
  market_value

/-- `calculate_player_market_value_only` (lines 1323-1348): current salary ×
1.5 × age multiplier (reading the `'AGE'` key, line 1341), forced to 0 for a
free agent, truncated to an integer. -/
noncomputable def calculate_player_market_value_only (p : FinPlayer) : ℤ :=
  let current_salary := (p.salary).getD ((GLOBAL_BASE_SALARY : ℤ) : ℚ)
  let market_value := (current_salary : ℝ) * 1.5
  let age_multiplier := get_age_market_value_multiplier (some ((p.AGE).getD 25))
  let market_value := market_value * age_multiplier
  let market_value : ℝ :=
    if p.club_id = some 141 ∨ p.club_id = none then 0 else market_value
  pyIntR market_value

/-! ## Theorems -/

/-- **C1** (code bug evidence).  The mixed development key built for a regen by
`generate_proper_regen` does *not* follow the documented 32-bit layout: with
sampled profiles `[1, 2, 3]` the key is `(1 << 20) | (2 << 10) | 3 = 1050627`,
whose bit 31 is clear (so it is not even marked as mixed), whose bits 24-27
hold `0` rather than the archetype count `3`, and which the engine's own
decoder `decode_mixed_development_key` consequently treats as a (nonsensical)
single profile with `profile_type = 1050`. -/
theorem regen_mixed_key_violates_layout :
    regen_mixed_development_key 1 2 3 = 1050627 ∧
    Nat.testBit (regen_mixed_development_key 1 2 3) 31 = false ∧
    ((regen_mixed_development_key 1 2 3) >>> 24) &&& 0xF ≠ 3 ∧
    (decode_mixed_development_key (regen_mixed_development_key 1 2 3)).is_mixed
      = false ∧
    (decode_mixed_development_key (regen_mixed_development_key 1 2 3)).profile_type
      = 1050 := by
  decide

/-- **C2** (code bug evidence).  The encode/decode round trip does not
reproduce the archetype set: encoding archetypes `[0, 1]` with weights
`[0.5, 0.5]` gives key `2182099506`, which decodes to the archetype list
`[0, 1, 2]` — a spurious third archetype `2` read from the count byte — and
to renormalized weights `[25/58, 25/58, 4/29]`, where `25/58` is not within
integer-percentage rounding (`0.01`) of the encoded weight `0.5`. -/
theorem mixed_key_roundtrip_fails :
    encode_mixed_development_key [0, 1] [1/2, 1/2] = 2182099506 ∧
    (decode_mixed_development_key 2182099506).profiles = [0, 1, 2] ∧
    (decode_mixed_development_key 2182099506).profiles.toFinset ≠
      ([0, 1] : List ℕ).toFinset ∧
    (decode_mixed_development_key 2182099506).weights = [25/58, 25/58, 4/29] ∧
    ¬ |(25/58 : ℚ) - 1/2| ≤ 1/100 := by
  have h1 : (pyInt ((1:ℚ)/2 * 100)).toNat = 50 := by norm_num [pyInt]; decide
  have henc : encode_mixed_development_key [0, 1] [1/2, 1/2] = 2182099506 := by
    simp only [encode_mixed_development_key, encodeProfilesLoop, encodeWeightsLoop, h1]
    decide
  have hnum : ((2182099506:ℕ) >>> 24) &&& 0xFF = 130 := by decide
  have hmin : min 130 3 = 3 := by decide
  have hrange : List.range 3 = [0, 1, 2] := rfl
  have ha : ¬ ((2182099506:ℕ) &&& 0x80000000 = 0) := by decide
  have p0 : (2182099506:ℕ) >>> 16 &&& 15 = 0 := by decide
  have p1 : (2182099506:ℕ) >>> 20 &&& 15 = 1 := by decide
  have p2 : (2182099506:ℕ) >>> 24 &&& 15 = 2 := by decide
  have w0 : (2182099506:ℕ) &&& 255 = 50 := by decide
  have w1 : (2182099506:ℕ) >>> 8 &&& 255 = 50 := by decide
  have w2 : (2182099506:ℕ) >>> 16 &&& 255 = 16 := by decide
  have hdec : (decode_mixed_development_key 2182099506).profiles = [0, 1, 2] ∧
      (decode_mixed_development_key 2182099506).weights = [25/58, 25/58, 4/29] := by
    norm_num [decode_mixed_development_key, hnum, hmin, hrange, ha,
      List.filterMap_cons, p0, p1, p2, w0, w1, w2]
    exact List.cons_ne_nil _ _
  refine ⟨henc, hdec.1, by decide, hdec.2, ?_⟩
  rw [abs_le]
  norm_num

/-- Helper for C3: a three-element list divided by its own (positive) sum
sums to 1. -/
theorem map_div_sum_self (a b c : ℚ) (h : 0 < a + (b + (c + 0))) :
    (List.map (fun x => x / (a + (b + (c + 0)))) [a, b, c]).sum = 1 := by
  have h' : a + (b + (c + 0)) ≠ 0 := ne_of_gt h
  simp only [List.map_cons, List.map_nil, List.sum_cons, List.sum_nil]
  field_simp
  exact div_self (by rw [show a + (b + c) = a + (b + (c + 0)) from by ring]; exact h')

/-- Helper for C3: for any key with bit 31 set, a count byte of at least 3
and a positive low byte, the mixed decoder returns exactly three profiles
and weights that renormalize to sum exactly 1. -/
theorem decode_of_encoded_key (k c0 : ℕ)
    (ha : k &&& 0x80000000 ≠ 0)
    (hnum : 3 ≤ (k >>> 24) &&& 0xFF)
    (hc : k &&& 0xFF = c0)
    (hc0 : 1 ≤ c0) :
    (decode_mixed_development_key k).weights.sum = 1 ∧
    (decode_mixed_development_key k).profiles.length = 3 := by
  unfold decode_mixed_development_key
  rw [if_pos ha]
  dsimp only
  rw [min_eq_right hnum]
  rw [show List.range 3 = [0, 1, 2] from rfl]
  simp only [List.map_cons, List.map_nil]
  set P : List ℕ := List.filterMap (fun i =>
      let profile_type := (k >>> (16 + i * 4)) &&& 0xF
      if profile_type ≤ 9 then some profile_type else none) [0, 1, 2] with hP
  have hPlen : P.length ≤ 3 := by
    calc P.length ≤ ([0, 1, 2] : List ℕ).length := List.length_filterMap_le _ _
    _ = 3 := rfl
  have hlen3 : ∀ (x y z : ℚ), ([x, y, z] : List ℚ).length = 3 := fun _ _ _ => rfl
  have h3 : P.length - 3 = 0 := Nat.sub_eq_zero_of_le hPlen
  rw [Nat.shiftRight_zero, hc]
  simp only [hlen3, h3, List.replicate_zero, List.append_nil]
  rw [if_pos (List.cons_ne_nil _ _)]
  simp only [List.sum_cons, List.sum_nil]
  constructor
  · split_ifs with hgt
    · exact map_div_sum_self _ _ _ hgt
    · exfalso
      apply hgt
      have h1 : (0:ℚ) < (c0 : ℚ) := by
        exact_mod_cast Nat.lt_of_lt_of_le Nat.zero_lt_one hc0
      have h2 : (0:ℚ) ≤ ((k >>> (1*8) &&& 255 : ℕ) : ℚ) := Nat.cast_nonneg _
      have h5 : (0:ℚ) ≤ ((k >>> (2*8) &&& 255 : ℕ) : ℚ) := Nat.cast_nonneg _
      linarith
  · simp only [List.length_append, List.length_replicate]
    omega

/-- Helper for C3: bits below the shift amount of `x <<< s` are clear. -/
theorem testBit_shifted_low {x s i : ℕ} (h : i < s) : (x <<< s).testBit i = false := by
  rw [Nat.testBit_shiftLeft]
  simp [Nat.not_le.mpr h]

/-- Helper for C3: a weight in the generator's `[0.1, 0.9]` envelope encodes
to an integer percentage in `[10, 90]`. -/
theorem pyInt_pct_bounds (w : ℚ) (h1 : 1/10 ≤ w) (h2 : w ≤ 9/10) :
    10 ≤ (pyInt (w * 100)).toNat ∧ (pyInt (w * 100)).toNat ≤ 90 := by
  have h0 : (0:ℚ) ≤ w * 100 := by linarith
  unfold pyInt
  rw [if_pos h0]
  have hf1 : (10:ℤ) ≤ ⌊w * 100⌋ := by
    apply Int.le_floor.mpr
    push_cast
    linarith
  have hf2 : ⌊w * 100⌋ ≤ 90 := by
    calc ⌊w * 100⌋ ≤ ⌊(90:ℚ)⌋ := Int.floor_mono (by linarith)
    _ = 90 := by norm_num
  omega

/-- Helper for C3: the three decoder-relevant facts about a two-archetype
encoded key (bit 31 set, count byte at least 3, low byte equal to the first
weight percentage). -/
theorem encoded2_facts (k p0 p1 c0 c1 : ℕ) (hc0 : c0 < 256)
    (hk : k = ((((0x80000000 ||| ((2:ℕ) <<< 24)) ||| (p0 <<< 16)) ||| (p1 <<< 20)) |||
      (c0 <<< 0)) ||| (c1 <<< 8)) :
    k &&& 0x80000000 ≠ 0 ∧ 3 ≤ (k >>> 24) &&& 0xFF ∧ k &&& 0xFF = c0 := by
  have hbit31 : k.testBit 31 = true := by
    subst hk
    rw [Nat.testBit_or, Nat.testBit_or, Nat.testBit_or, Nat.testBit_or, Nat.testBit_or,
      show (0x80000000:ℕ).testBit 31 = true from by decide]
    simp
  refine ⟨?_, ?_, ?_⟩
  · rw [show (0x80000000:ℕ) = 2^31 from by norm_num, Nat.and_two_pow, hbit31]
    norm_num
  · have h7 : ((k >>> 24) &&& 0xFF).testBit 7 = true := by
      rw [Nat.testBit_and, Nat.testBit_shiftRight]
      rw [show (24 + 7) = 31 from rfl, hbit31]
      rw [show (0xFF:ℕ) = 2^8 - 1 from by norm_num, Nat.testBit_two_pow_sub_one]
      rfl
    have := Nat.testBit_implies_ge h7
    omega
  · rw [show (0xFF:ℕ) = 2^8 - 1 from by norm_num, Nat.and_pow_two_sub_one_eq_mod]
    apply Nat.eq_of_testBit_eq
    intro i
    rw [Nat.testBit_mod_two_pow]
    by_cases hi : i < 8
    · have e1 : (0x80000000:ℕ).testBit i = false := by
        rw [show (0x80000000:ℕ) = 2^31 from by norm_num]
        exact Nat.testBit_two_pow_of_ne (by omega)
      have e2 : ((2:ℕ) <<< 24).testBit i = false := testBit_shifted_low (by omega)
      have e3 : (p0 <<< 16).testBit i = false := testBit_shifted_low (by omega)
      have e4 : (p1 <<< 20).testBit i = false := testBit_shifted_low (by omega)
      have e6 : (c1 <<< 8).testBit i = false := testBit_shifted_low (by omega)
      have e12 : (2181038080:ℕ).testBit i = false := by
        rw [show (2181038080:ℕ) = 130 <<< 24 from by decide]
        exact testBit_shifted_low (by omega)
      subst hk
      simp [Nat.testBit_or, e1, e2, e3, e4, e6, e12, hi, Nat.shiftLeft_zero]
    · have hcc : c0 < 2^i := by
        calc c0 < 256 := hc0
        _ = 2^8 := by norm_num
        _ ≤ 2^i := Nat.pow_le_pow_right (by norm_num) (by omega)
      simp [hi, Nat.testBit_lt_two_pow hcc]

/-- Helper for C3: the same three facts for a three-archetype encoded key
(whose third archetype and third weight overlap the count byte and the
archetype nibbles — neither of which disturbs bit 31, the count byte's high
bit, or the low byte). -/
theorem encoded3_facts (k p0 p1 p2 c0 c1 c2 : ℕ) (hc0 : c0 < 256)
    (hk : k = ((((((0x80000000 ||| ((3:ℕ) <<< 24)) ||| (p0 <<< 16)) ||| (p1 <<< 20)) |||
      (p2 <<< 24)) ||| (c0 <<< 0)) ||| (c1 <<< 8)) ||| (c2 <<< 16)) :
    k &&& 0x80000000 ≠ 0 ∧ 3 ≤ (k >>> 24) &&& 0xFF ∧ k &&& 0xFF = c0 := by
  have hbit31 : k.testBit 31 = true := by
    subst hk
    rw [Nat.testBit_or, Nat.testBit_or, Nat.testBit_or, Nat.testBit_or, Nat.testBit_or,
      Nat.testBit_or, Nat.testBit_or,
      show (0x80000000:ℕ).testBit 31 = true from by decide]
    simp
  refine ⟨?_, ?_, ?_⟩
  · rw [show (0x80000000:ℕ) = 2^31 from by norm_num, Nat.and_two_pow, hbit31]
    norm_num
  · have h7 : ((k >>> 24) &&& 0xFF).testBit 7 = true := by
      rw [Nat.testBit_and, Nat.testBit_shiftRight]
      rw [show (24 + 7) = 31 from rfl, hbit31]
      rw [show (0xFF:ℕ) = 2^8 - 1 from by norm_num, Nat.testBit_two_pow_sub_one]
      rfl
    have := Nat.testBit_implies_ge h7
    omega
  · rw [show (0xFF:ℕ) = 2^8 - 1 from by norm_num, Nat.and_pow_two_sub_one_eq_mod]
    apply Nat.eq_of_testBit_eq
    intro i
    rw [Nat.testBit_mod_two_pow]
    by_cases hi : i < 8
    · have e1 : (0x80000000:ℕ).testBit i = false := by
        rw [show (0x80000000:ℕ) = 2^31 from by norm_num]
        exact Nat.testBit_two_pow_of_ne (by omega)
      have e2 : ((3:ℕ) <<< 24).testBit i = false := testBit_shifted_low (by omega)
      have e3 : (p0 <<< 16).testBit i = false := testBit_shifted_low (by omega)
      have e4 : (p1 <<< 20).testBit i = false := testBit_shifted_low (by omega)
      have e5 : (p2 <<< 24).testBit i = false := testBit_shifted_low (by omega)
      have e6 : (c1 <<< 8).testBit i = false := testBit_shifted_low (by omega)
      have e7 : (c2 <<< 16).testBit i = false := testBit_shifted_low (by omega)
      have e12 : (2197815296:ℕ).testBit i = false := by
        rw [show (2197815296:ℕ) = 131 <<< 24 from by decide]
        exact testBit_shifted_low (by omega)
      subst hk
      simp [Nat.testBit_or, e1, e2, e3, e4, e5, e6, e7, e12, hi, Nat.shiftLeft_zero]
    · have hcc : c0 < 2^i := by
        calc c0 < 256 := hc0
        _ = 2^8 := by norm_num
        _ ≤ 2^i := Nat.pow_le_pow_right (by norm_num) (by omega)
      simp [hi, Nat.testBit_lt_two_pow hcc]

/-- **C3**: decoding any key produced by the mixed-profile encoder (2 or 3
sampled archetypes with normalized minimum-10% weights) yields weights that
sum to exactly 1 (so certainly within the 1e-2 tolerance) and an archetype
count in `{2, 3}` (it is in fact always 3: the decoder's count read
includes bit 31, so it always extracts three entries). -/
theorem mixed_key_decode_invariants (profiles : List ℕ) (weights : List ℚ)
    (hlen : profiles.length = weights.length)
    (hn : profiles.length = 2 ∨ profiles.length = 3)
    (hw : ∀ w ∈ weights, 1/10 ≤ w ∧ w ≤ 9/10) :
    (decode_mixed_development_key
      (encode_mixed_development_key profiles weights)).weights.sum = 1 ∧
    ((decode_mixed_development_key
        (encode_mixed_development_key profiles weights)).profiles.length = 2 ∨
     (decode_mixed_development_key
        (encode_mixed_development_key profiles weights)).profiles.length = 3) := by
  rcases hn with h2 | h3
  · obtain ⟨p0, p1, rfl⟩ := List.length_eq_two.mp h2
    obtain ⟨w0, w1, rfl⟩ := List.length_eq_two.mp (hlen.symm.trans h2)
    obtain ⟨hw0, hw0h⟩ := hw w0 (by simp)
    obtain ⟨hb0, hb0h⟩ := pyInt_pct_bounds w0 hw0 hw0h
    obtain ⟨ha, hnum, hc⟩ := encoded2_facts
      (encode_mixed_development_key [p0, p1] [w0, w1]) p0 p1
      ((pyInt (w0 * 100)).toNat) ((pyInt (w1 * 100)).toNat) (by omega) rfl
    have h := decode_of_encoded_key _ _ ha hnum hc (by omega)
    exact ⟨h.1, Or.inr h.2⟩
  · obtain ⟨p0, p1, p2, rfl⟩ := List.length_eq_three.mp h3
    obtain ⟨w0, w1, w2, rfl⟩ := List.length_eq_three.mp (hlen.symm.trans h3)
    obtain ⟨hw0, hw0h⟩ := hw w0 (by simp)
    obtain ⟨hb0, hb0h⟩ := pyInt_pct_bounds w0 hw0 hw0h
    obtain ⟨ha, hnum, hc⟩ := encoded3_facts
      (encode_mixed_development_key [p0, p1, p2] [w0, w1, w2]) p0 p1 p2
      ((pyInt (w0 * 100)).toNat) ((pyInt (w1 * 100)).toNat)
      ((pyInt (w2 * 100)).toNat) (by omega) rfl
    have h := decode_of_encoded_key _ _ ha hnum hc (by omega)
    exact ⟨h.1, Or.inr h.2⟩

/-- Witness for `mixed_key_decode_invariants`: archetypes `[0, 1]` with
equal weights. -/
theorem mixed_key_decode_invariants_witness :
    (([0, 1] : List ℕ).length = ([1/2, 1/2] : List ℚ).length ∧
     (([0, 1] : List ℕ).length = 2 ∨ ([0, 1] : List ℕ).length = 3) ∧
     (∀ w ∈ ([1/2, 1/2] : List ℚ), 1/10 ≤ w ∧ w ≤ 9/10)) ∧
    ((decode_mixed_development_key
        (encode_mixed_development_key [0, 1] [1/2, 1/2])).weights.sum = 1 ∧
     ((decode_mixed_development_key
        (encode_mixed_development_key [0, 1] [1/2, 1/2])).profiles.length = 2 ∨
      (decode_mixed_development_key
        (encode_mixed_development_key [0, 1] [1/2, 1/2])).profiles.length = 3)) := by
  have hbound : ∀ w ∈ ([1/2, 1/2] : List ℚ), 1/10 ≤ w ∧ w ≤ 9/10 := by
    intro w hw
    simp only [List.mem_cons, List.not_mem_nil, or_false] at hw
    rcases hw with h | h <;> subst h <;> norm_num
  exact ⟨⟨rfl, Or.inl rfl, hbound⟩,
    mixed_key_decode_invariants [0, 1] [1/2, 1/2] rfl (Or.inl rfl) hbound⟩

/-- **C6**: below age 30 the retirement evaluation always returns
`wants_to_retire = false` with probability `0`; at or above age 30 the
probability is the clamp to `[0,1]` of
`min(0.8, ((age-30)/13)*0.75) + (0.25 if free agent else 0)
 - (1 - min(1, salary/(15*300000)))*0.3`,
and the player retires exactly when the drawn sample is below it. -/
theorem check_player_retirement_spec (p : RetirePlayer) (r : ℚ) :
    (p.age < 30 →
      check_player_retirement p r =
        { wants_to_retire := false, retirement_probability := 0 }) ∧
    (30 ≤ p.age →
      (check_player_retirement p r).retirement_probability =
        max 0 (min 1
          (min (8/10) (((p.age : ℚ) - 30) / 13 * (75/100))
            + (if p.club_id = some 141 ∨ p.club_id = none then (25/100 : ℚ) else 0)
            - (1 - min 1 (p.salary / (15 * 300000))) * (3/10))) ∧
      ((check_player_retirement p r).wants_to_retire = true ↔
        r < (check_player_retirement p r).retirement_probability)) := by
  unfold check_player_retirement
  constructor
  · intro h
    simp [h]
  · intro h
    have h' : ¬ p.age < 30 := by omega
    simp only [h', if_false, GLOBAL_BASE_SALARY]
    refine ⟨?_, by simp [decide_eq_true_iff]⟩
    norm_num [mul_comm]

/-- Witness for `check_player_retirement_spec`: both branches at concrete
players (a 25-year-old under contract; a 44-year-old free agent). -/
theorem check_player_retirement_spec_witness :
    (check_player_retirement ⟨25, 500000, some 3⟩ (1/2) =
      { wants_to_retire := false, retirement_probability := 0 }) ∧
    ((check_player_retirement ⟨44, 300000, some 141⟩ (1/2)).retirement_probability =
      max 0 (min 1 (min (8/10) (((44:ℚ) - 30) / 13 * (75/100)) + 25/100
        - (1 - min 1 ((300000:ℚ) / (15 * 300000))) * (3/10))) ∧
     ((check_player_retirement ⟨44, 300000, some 141⟩ (1/2)).wants_to_retire = true ↔
        (1/2:ℚ) <
          (check_player_retirement ⟨44, 300000, some 141⟩ (1/2)).retirement_probability)) := by
  refine ⟨(check_player_retirement_spec ⟨25, 500000, some 3⟩ (1/2)).1 (by norm_num), ?_⟩
  have h := (check_player_retirement_spec ⟨44, 300000, some 141⟩ (1/2)).2 (by norm_num)
  simpa using h

/-- Helper: whatever `develop_skill_entry` returns for `skill` is keyed by
`skill` itself, has a `new` value of the clamped form
`max 1 (min 99 _)`, and can be `goal_keeping` only for position `'0'`. -/
theorem develop_skill_entry_some (p : DevPlayer) (registered_position : String)
    (final_multiplier : ℚ) (boost : PerformanceBoost)
    (position_weights : List (String × ℚ)) (skill_random : String → ℚ)
    (skill : String) (s : String) (e : SkillChange)
    (h : develop_skill_entry p registered_position final_multiplier boost
      position_weights skill_random skill = some (s, e)) :
    s = skill ∧ (∃ x : ℤ, e.new = max 1 (min 99 x)) ∧
      (s = "goal_keeping" → registered_position = "0") := by
  unfold develop_skill_entry at h
  revert h
  cases p.skills skill with
  | none => intro h; cases h
  | some current_value =>
    dsimp only
    by_cases hgk : (skill = "goal_keeping" ∧ registered_position ≠ "0")
    · rw [if_pos hgk]; intro h; cases h
    · rw [if_neg hgk]
      intro h
      obtain ⟨h1, h2⟩ := Prod.mk.injEq .. |>.mp (Option.some.inj h)
      refine ⟨h1.symm, ⟨_, by rw [← h2]⟩, ?_⟩
      intro hs
      by_contra hrp
      exact hgk ⟨h1 ▸ hs, hrp⟩

/-- **C4**: the market-value age multiplier is 4.0 at or below age 16,
exactly 1.0 at age 29, 0.01 at age 40 and above, and follows the
power-interpolated curves (exponent 1.5 on (16,29), exponent 3.0 on
(29,40)) strictly between the anchors. -/
theorem age_market_value_multiplier_curve (a : ℚ) :
    (a ≤ 16 → get_age_market_value_multiplier (some a) = 4) ∧
    get_age_market_value_multiplier (some 29) = 1 ∧
    (40 ≤ a → get_age_market_value_multiplier (some a) = 1/100) ∧
    (16 < a → a < 29 →
      get_age_market_value_multiplier (some a) =
        1 + 3 * (((29 - (a : ℝ)) / 13) ^ ((3 : ℝ)/2))) ∧
    (29 < a → a < 40 →
      get_age_market_value_multiplier (some a) =
        1/100 + (99/100) * (((40 - (a : ℝ)) / 11) ^ (3 : ℝ))) := by
  refine ⟨?_, ?_, ?_, ?_, ?_⟩
  · intro h
    unfold get_age_market_value_multiplier
    dsimp only
    rw [if_pos h]
  · norm_num [get_age_market_value_multiplier]
  · intro h
    unfold get_age_market_value_multiplier
    dsimp only
    rw [if_neg (by linarith), if_neg (by linarith), if_neg (by linarith),
      if_neg (by linarith)]
  · intro h1 h2
    unfold get_age_market_value_multiplier
    dsimp only
    rw [if_neg (by linarith : ¬ a ≤ 16), if_pos h2]
    push_cast
    rw [show (1 : ℝ) - ((a : ℝ) - 16) / (29 - 16) = (29 - (a : ℝ)) / 13 from by ring]
    norm_num
  · intro h1 h2
    unfold get_age_market_value_multiplier
    dsimp only
    rw [if_neg (by linarith : ¬ a ≤ 16), if_neg (by linarith : ¬ a < 29),
      if_neg (by linarith : ¬ a = 29), if_pos h2]
    push_cast
    rw [show (1 : ℝ) - ((a : ℝ) - 29) / (40 - 29) = (40 - (a : ℝ)) / 11 from by ring]
    norm_num

/-- Witness for `age_market_value_multiplier_curve`: the anchors and one
interior point of each interpolated segment. -/
theorem age_market_value_multiplier_curve_witness :
    ((10 : ℚ) ≤ 16 ∧ get_age_market_value_multiplier (some 10) = 4) ∧
    get_age_market_value_multiplier (some 29) = 1 ∧
    ((40 : ℚ) ≤ 45 ∧ get_age_market_value_multiplier (some 45) = 1/100) ∧
    ((16 : ℚ) < 20 ∧ (20 : ℚ) < 29 ∧
      get_age_market_value_multiplier (some 20) =
        1 + 3 * (((29 - ((20 : ℚ) : ℝ)) / 13) ^ ((3 : ℝ)/2))) ∧
    ((29 : ℚ) < 35 ∧ (35 : ℚ) < 40 ∧
      get_age_market_value_multiplier (some 35) =
        1/100 + (99/100) * (((40 - ((35 : ℚ) : ℝ)) / 11) ^ (3 : ℝ))) :=
  ⟨⟨by norm_num, (age_market_value_multiplier_curve 10).1 (by norm_num)⟩,
   (age_market_value_multiplier_curve 0).2.1,
   ⟨by norm_num, (age_market_value_multiplier_curve 45).2.2.1 (by norm_num)⟩,
   ⟨by norm_num, by norm_num,
    (age_market_value_multiplier_curve 20).2.2.2.1 (by norm_num) (by norm_num)⟩,
   ⟨by norm_num, by norm_num,
    (age_market_value_multiplier_curve 35).2.2.2.2 (by norm_num) (by norm_num)⟩⟩

/-- Helper: on `[70, 99]` the per-skill salary multiplier is exactly
`0.5 * 8 ^ ((v - 70) / 29)`. -/
theorem salary_skill_mult_eq_on (v : ℚ) (h1 : 70 ≤ v) (h2 : v ≤ 99) :
    salary_skill_mult v = (1/2 : ℝ) * (8 : ℝ) ^ (((v : ℝ) - 70) / 29) := by
  unfold salary_skill_mult
  rcases eq_or_lt_of_le h2 with h99 | h99
  · subst h99
    rw [if_pos (show (99:ℚ) ≥ R_END from by norm_num [R_END])]
    rw [show ((((99:ℚ) : ℝ)) - 70) / 29 = (1:ℝ) from by norm_num]
    norm_num [MAX_MULT, Real.rpow_one]
  · rw [if_neg (show ¬ (v ≥ R_END) from by simp only [R_END]; exact not_le.mpr h99)]
    rcases eq_or_lt_of_le h1 with h70 | h70
    · subst h70
      rw [if_neg (show ¬ ((70:ℚ) > R_START) from by norm_num [R_START])]
      rw [show ((((70:ℚ) : ℝ)) - 70) / 29 = (0:ℝ) from by norm_num]
      norm_num [MIN_MULT, Real.rpow_zero]
    · rw [if_pos (show v > R_START from by simp only [R_START]; exact h70)]
      dsimp only
      rw [if_pos (by norm_num [MIN_MULT, MAX_MULT]),
        if_neg (by norm_num [MIN_MULT, MAX_MULT]),
        if_pos (by norm_num [MIN_MULT])]
      simp only [MIN_MULT, MAX_MULT, R_START, R_END]
      push_cast
      norm_num

/-- **C5**: the per-skill salary multiplier is exactly 0.5 below 70 and
exactly 4.0 at or above 99; it is monotonically non-decreasing on
`[70, 99]`, where it equals `0.5 * (4.0/0.5) ^ ((v-70)/29)` strictly
between the thresholds. -/
theorem salary_skill_mult_spec (v v1 v2 : ℚ) :
    (v < 70 → salary_skill_mult v = 1/2) ∧
    (99 ≤ v → salary_skill_mult v = 4) ∧
    (70 ≤ v1 → v1 ≤ v2 → v2 ≤ 99 →
      salary_skill_mult v1 ≤ salary_skill_mult v2) ∧
    (70 < v → v < 99 →
      salary_skill_mult v =
        (1/2 : ℝ) * ((4 : ℝ) / (1/2)) ^ (((v : ℝ) - 70) / 29)) := by
  refine ⟨?_, ?_, ?_, ?_⟩
  · intro h
    unfold salary_skill_mult
    rw [if_neg (by simp only [R_END]; linarith),
      if_neg (by simp only [R_START]; linarith)]
    norm_num [MIN_MULT]
  · intro h
    unfold salary_skill_mult
    rw [if_pos (by simp only [R_END]; exact h)]
    norm_num [MAX_MULT]
  · intro ha hb hc
    rw [salary_skill_mult_eq_on v1 ha (le_trans hb hc),
      salary_skill_mult_eq_on v2 (le_trans ha hb) hc]
    have hcast : (v1 : ℝ) ≤ (v2 : ℝ) := by exact_mod_cast hb
    refine mul_le_mul_of_nonneg_left ?_ (by norm_num)
    refine Real.rpow_le_rpow_of_exponent_le (by norm_num) ?_
    gcongr
  · intro h1 h2
    rw [salary_skill_mult_eq_on v (le_of_lt h1) (le_of_lt h2)]
    norm_num

/-- Witness for `salary_skill_mult_spec`: the flat regions, the endpoints of
the monotone interval, and one interior point. -/
theorem salary_skill_mult_spec_witness :
    ((60 : ℚ) < 70 ∧ salary_skill_mult 60 = 1/2) ∧
    ((99 : ℚ) ≤ 100 ∧ salary_skill_mult 100 = 4) ∧
    ((70 : ℚ) ≤ 70 ∧ (70 : ℚ) ≤ 99 ∧ (99 : ℚ) ≤ 99 ∧
      salary_skill_mult 70 ≤ salary_skill_mult 99) ∧
    ((70 : ℚ) < 80 ∧ (80 : ℚ) < 99 ∧
      salary_skill_mult 80 =
        (1/2 : ℝ) * ((4 : ℝ) / (1/2)) ^ ((((80 : ℚ) : ℝ) - 70) / 29)) :=
  ⟨⟨by norm_num, (salary_skill_mult_spec 60 0 0).1 (by norm_num)⟩,
   ⟨by norm_num, (salary_skill_mult_spec 100 0 0).2.1 (by norm_num)⟩,
   ⟨by norm_num, by norm_num, by norm_num,
    (salary_skill_mult_spec 0 70 99).2.2.1 (by norm_num) (by norm_num) (by norm_num)⟩,
   ⟨by norm_num, by norm_num,
    (salary_skill_mult_spec 80 0 0).2.2.2 (by norm_num) (by norm_num)⟩⟩

/-- **C9**: the computed base salary is at least 300000 and a multiple of
1000, for every player, position-average table and skill/binary lists. -/
theorem calculate_player_salary_base_floor (p : FinPlayer)
    (pos_avg_df : Option (String → Option (String → Option ℚ)))
    (skills binaries : List String) :
    300000 ≤ calculate_player_salary_base p pos_avg_df skills binaries ∧
    (1000 : ℤ) ∣ calculate_player_salary_base p pos_avg_df skills binaries := by
  unfold calculate_player_salary_base
  constructor
  · exact le_max_left _ _
  · rcases max_choice (GLOBAL_BASE_SALARY)
      (round ((((GLOBAL_BASE_SALARY : ℤ) : ℝ) +
        (max 0 (max 0 (salary_twss p pos_avg_df
          ((p.registered_position).getD "Unknown Position") skills binaries) /
            (DIV : ℝ)) ^ (3 : ℝ) * (SCALER : ℝ))) / 1000) * 1000) with h | h
    · rw [h]; exact ⟨300, by norm_num [GLOBAL_BASE_SALARY]⟩
    · rw [h]; exact dvd_mul_left 1000 _

/-- **C7**: a free agent (club id 141 or missing) gets market value exactly 0
from both market-value computations, for all skills, salary, age, tables and
random factors. -/
theorem market_value_zero_for_free_agents (p : FinPlayer)
    (pos_avg_df : Option (String → Option (String → Option ℚ)))
    (skills : List String) (mv_factor : ℝ)
    (h : p.club_id = some 141 ∨ p.club_id = none) :
    calculate_player_financials_market_value p pos_avg_df skills mv_factor = 0 ∧
    calculate_player_market_value_only p = 0 := by
  constructor
  · unfold calculate_player_financials_market_value
    simp only [if_pos h]
  · unfold calculate_player_market_value_only
    simp only [if_pos h]
    unfold pyIntR
    norm_num

/-- Witness for `market_value_zero_for_free_agents`: a clubless player with
no recorded fields at all. -/
theorem market_value_zero_for_free_agents_witness :
    ((⟨fun _ => none, none, none, none, none, none⟩ : FinPlayer).club_id = some 141 ∨
      (⟨fun _ => none, none, none, none, none, none⟩ : FinPlayer).club_id = none) ∧
    (calculate_player_financials_market_value
        ⟨fun _ => none, none, none, none, none, none⟩ none [] 0 = 0 ∧
      calculate_player_market_value_only
        ⟨fun _ => none, none, none, none, none, none⟩ = 0) :=
  ⟨Or.inr rfl,
   market_value_zero_for_free_agents _ none [] 0 (Or.inr rfl)⟩

/-- **C8**: every entry of the season-development result has its `new` value
in `[1, 99]`, and `goal_keeping` is absent from the result whenever the
player's registered position (defaulted to `'7'`) is not the goalkeeper
position `'0'` — for every player record, development key, trait key,
position-average row, and random draws. -/
theorem skill_development_entry_bounds
    (p : DevPlayer) (development_key trait_key : ℕ)
    (pos_avg_row : Option (List (String × ℚ)))
    (random_factor performance_random : ℚ) (skill_random : String → ℚ)
    (s : String) (e : SkillChange)
    (hmem : (s, e) ∈ (calculate_player_skill_development p development_key
        trait_key pos_avg_row random_factor performance_random
        skill_random).skill_changes) :
    (1 ≤ e.new ∧ e.new ≤ 99) ∧
    ((p.registered_position).getD "7" ≠ "0" → s ≠ "goal_keeping") := by
  simp only [calculate_player_skill_development] at hmem
  rw [List.mem_filterMap] at hmem
  obtain ⟨a, -, ha⟩ := hmem
  obtain ⟨hsa, ⟨x, hx⟩, hgk⟩ := develop_skill_entry_some _ _ _ _ _ _ _ _ _ ha
  subst hsa
  refine ⟨⟨?_, ?_⟩, ?_⟩
  · rw [hx]; exact le_max_left _ _
  · rw [hx]; exact max_le (by norm_num) (min_le_left _ _)
  · intro hpos hseq
    exact hpos (hgk hseq)

/-- Witness for `skill_development_entry_bounds`: a player whose only
recorded skill is `attack = 50`, with trivial random draws. -/
theorem skill_development_entry_bounds_witness :
    (("attack", (⟨50, 0, 50, 1, 0⟩ : SkillChange)) ∈
      (calculate_player_skill_development
        ⟨none, some "7", fun s => if s = "attack" then some 50 else none,
          none, none, none⟩
        0 0 none 1 1 (fun _ => 1)).skill_changes) ∧
    ((1 ≤ (⟨50, 0, 50, 1, 0⟩ : SkillChange).new ∧
      (⟨50, 0, 50, 1, 0⟩ : SkillChange).new ≤ 99) ∧
     ((Option.getD (some "7") "7" ≠ "0") → "attack" ≠ "goal_keeping")) := by
  have hdec0 : decode_mixed_development_key 0 =
      { is_mixed := false, profiles := [], weights := [],
        profile_type := 0, base_multiplier := 0 } := by
    norm_num [decode_mixed_development_key, decode_development_key]
  have hm : ("attack", (⟨50, 0, 50, 1, 0⟩ : SkillChange)) ∈
      (calculate_player_skill_development
        ⟨none, some "7", fun s => if s = "attack" then some 50 else none,
          none, none, none⟩
        0 0 none 1 1 (fun _ => 1)).skill_changes := by
    simp only [calculate_player_skill_development, hdec0]
    norm_num [get_age_development_multiplier, decode_development_trait,
      get_position_skill_weights_from_averages, apply_development_trait_effects,
      calculate_performance_boost]
    refine ⟨"attack", by simp [dev_skill_columns], ?_⟩
    norm_num [develop_skill_entry, pyInt]
    exact ⟨by decide, by decide⟩
  exact ⟨hm, skill_development_entry_bounds _ _ _ _ _ _ _ _ _ hm⟩

/-- **C10**: the regen generator forces the `consistency` and
`condition_fitness` skills of a replacement player into `[4, 8]`, for every
retiring-player record, every observed column-range table and all random
draws — overriding both the retiree-derived scaled value and the database
column ranges. -/
theorem regen_consistency_condition_forced
    (retired : String → Option ℚ) (column_ranges : String → Option (ℤ × ℤ))
    (age_factor variation : ℚ) (rand_4_8 rand_50_70 : ℤ)
    (h4 : 4 ≤ rand_4_8) (h8 : rand_4_8 ≤ 8) :
    (4 ≤ regen_skill_value retired column_ranges age_factor variation
        rand_4_8 rand_50_70 "consistency" ∧
     regen_skill_value retired column_ranges age_factor variation
        rand_4_8 rand_50_70 "consistency" ≤ 8) ∧
    (4 ≤ regen_skill_value retired column_ranges age_factor variation
        rand_4_8 rand_50_70 "condition_fitness" ∧
     regen_skill_value retired column_ranges age_factor variation
        rand_4_8 rand_50_70 "condition_fitness" ≤ 8) := by
  have hne1 : ¬ (("consistency" : String) = "condition_fitness") := by decide
  have hne2 : ¬ (("condition_fitness" : String) = "consistency") := by decide
  unfold regen_skill_value
  constructor
  · cases retired "consistency" with
    | none =>
      simp only [if_neg hne1, if_pos (rfl : ("consistency" : String) = "consistency")]
      exact ⟨h4, h8⟩
    | some base_value =>
      dsimp only
      simp only [if_neg hne1, if_pos (rfl : ("consistency" : String) = "consistency")]
      exact ⟨le_max_left _ _, max_le (by norm_num) (min_le_left _ _)⟩
  · cases retired "condition_fitness" with
    | none =>
      simp only [if_neg hne2,
        if_pos (rfl : ("condition_fitness" : String) = "condition_fitness")]
      exact ⟨h4, h8⟩
    | some base_value =>
      dsimp only
      simp only [if_neg hne2,
        if_pos (rfl : ("condition_fitness" : String) = "condition_fitness")]
      exact ⟨le_max_left _ _, max_le (by norm_num) (min_le_left _ _)⟩

/-- Witness for `regen_consistency_condition_forced`: a retiree with every
skill at 99, observed column ranges `[1, 99]`, and concrete draws. -/
theorem regen_consistency_condition_forced_witness :
    ((4:ℤ) ≤ 5 ∧ (5:ℤ) ≤ 8) ∧
    ((4 ≤ regen_skill_value (fun _ => some 99) (fun _ => some (1, 99))
        (3/4) 0 5 60 "consistency" ∧
      regen_skill_value (fun _ => some 99) (fun _ => some (1, 99))
        (3/4) 0 5 60 "consistency" ≤ 8) ∧
     (4 ≤ regen_skill_value (fun _ => some 99) (fun _ => some (1, 99))
        (3/4) 0 5 60 "condition_fitness" ∧
      regen_skill_value (fun _ => some 99) (fun _ => some (1, 99))
        (3/4) 0 5 60 "condition_fitness" ≤ 8)) :=
  ⟨⟨by norm_num, by norm_num⟩,
   regen_consistency_condition_forced (fun _ => some 99) (fun _ => some (1, 99))
     (3/4) 0 5 60 (by norm_num) (by norm_num)⟩

end GameMechanics
